import Mathlib

/-!
Verification of the session/run orchestration core of the open_deep_research
repository (files async_research_mcp_final.py and async_research_mcp.py).

The remote LangGraph engine is modelled as an oracle: every remote HTTP call
is represented by a `FetchResult` value describing what the call did (raised a
network exception, returned a non-success HTTP status, or returned a parsed
JSON payload).  Time is idealized: network calls take zero time and the
polling loop sleeps 2 seconds per iteration, so the while-loop condition
`time.time() - start_time < timeout` admits exactly the iterations k with
2 * k < timeout, i.e. ceil(timeout / 2) = (timeout + 1) / 2 iterations.
Python truthiness of optional strings (None and "" are falsy) is modelled by
`truthy`.  The global dict `active_sessions` is modelled as an association
list threaded explicitly through each function.
-/

/-- Lowercase a string character by character, the model of the Python
`str.lower()` call (identical on ASCII input). -/
def lowerStr (s : String) : String := String.mk (List.map Char.toLower s.data)

/-- Substring test, the model of the Python `pat in s` operator on strings. -/
def strContains (s pat : String) : Bool := decide (pat.data <:+: s.data)

/-- Python truthiness of an optional string: None and the empty string are
falsy, every other string is truthy. -/
def truthy : Option String → Bool
  | none => false
  | some s => s != ""

/-- Result of one remote HTTP call as seen by the caller: the call raised a
network exception, returned a non-success HTTP status code, or returned a
success status with parsed payload `a`. -/
inductive FetchResult (α : Type) where
  | exn (msg : String)
  | httpErr
  | ok (a : α)
deriving DecidableEq

/-- The materialized thread state returned by `GET /threads/{id}/state`:
`values.get("final_report")`, the extracted text content of each entry of
`values.get("messages", [])` (the source normalizes attribute / dict / str
message shapes to a text content string; a dict without a content key yields
""), and `state.get("status")`. -/
structure StateSnapshot where
  final_report : Option String
  messages : List String
  status : Option String
deriving DecidableEq

/-- The clarification heuristic applied to the text of the last message,
line 113 of async_research_mcp_final.py:
`content and ("?" in content or "clarify" in content.lower() or "specify" in content.lower())`. -/
def isClarification (content : String) : Bool :=
  (content != "") &&
    (strContains content "?" ||
     strContains (lowerStr content) "clarify" ||
     strContains (lowerStr content) "specify")

/-- Three-way classification produced by the success branch of
`wait_for_research_completion` (lines 85-116): a final report, a
clarification request carrying the last message text, or no usable result. -/
inductive Extracted where
  | report (r : String)
  | clarification (c : String)
  | noResult
deriving DecidableEq

/-- The result extraction of lines 90-116 of async_research_mcp_final.py:
a truthy `final_report` wins unconditionally; otherwise the last message is
inspected with the clarification heuristic; otherwise there is no result. -/
def extractResult (snap : StateSnapshot) : Extracted :=
  if truthy snap.final_report then
    Extracted.report (snap.final_report.getD "")
  else
    match snap.messages.getLast? with
    | some content =>
        if isClarification content then Extracted.clarification content
        else Extracted.noResult
    | none => Extracted.noResult

/-- The session registry `active_sessions`, a dict from session id to session
record, modelled as an association list in insertion order. -/
abbrev Registry (σ : Type) : Type := List (String × σ)

/-- Dict lookup `active_sessions.get(sid)`. -/
def lookupSession {σ : Type} (reg : Registry σ) (sid : String) : Option σ :=
  Option.map Prod.snd (List.find? (fun p => p.1 == sid) reg)

/-- The deletion `del active_sessions[session_id]` guarded by
`if session_id in active_sessions` (lines 93-94): removes the entry with the
given key, and is the identity when the key is absent. -/
def removeSession {σ : Type} (sid : String) (reg : Registry σ) : Registry σ :=
  List.filter (fun p => p.1 != sid) reg

/-- The insertion `active_sessions[session_id] = {...}` for a fresh key:
Python dicts append new keys in insertion order. -/
def insertSession {σ : Type} (sid : String) (s : σ) (reg : Registry σ) : Registry σ :=
  reg ++ [(sid, s)]

/-- The session ids that appear in the listing rendered by
`list_active_sessions` (lines 312-331), which iterates
`active_sessions.items()` and emits one block per session. -/
def list_active_sessions {σ : Type} (reg : Registry σ) : List String :=
  List.map Prod.fst reg

/-- Session record stored by async_research_mcp_final.py line 188:
thread id, run id, question and start timestamp. -/
structure Session where
  thread_id : String
  run_id : String
  question : String
  started_at : Nat
deriving DecidableEq

/-- Session record stored by async_research_mcp.py line 138, which in
addition carries a status string (set to "running" on creation). -/
structure SessionA where
  thread_id : String
  run_id : String
  question : String
  status : String
  started_at : Nat
deriving DecidableEq

/-- What the engine oracle answers at one polling iteration: the result of
`GET /threads/{tid}/runs/{rid}` (payload: `run_data.get("status")`) and, read
only when that status is "success", the result of `GET /threads/{tid}/state`. -/
structure PollIter where
  runStatus : FetchResult (Option String)
  threadState : FetchResult StateSnapshot
deriving DecidableEq

/-- Caller-facing outcome of `wait_for_research_completion`, one constructor
per return statement of lines 96-128 of async_research_mcp_final.py. -/
inductive Outcome where
  | report (r : String)
  | clarification (c : String)
  | empty
  | failed (status : String)
  | pollError (msg : String)
  | timedOut
deriving DecidableEq

/-- One iteration of the polling loop of `wait_for_research_completion`
(lines 71-125).  `none` means the iteration fell through to
`await asyncio.sleep(2)` and the loop continues; `some (o, reg)` means the
iteration returned outcome `o` leaving the registry as `reg`.  A network
exception anywhere in the iteration returns an error outcome (line 124); a
non-success HTTP status on either GET falls through to the sleep; a terminal
failure run status returns a failed outcome; on run status "success" the
thread state is extracted, and only the report branch deletes the session
(lines 93-94). -/
def pollOnce {σ : Type} (it : PollIter) (sid : String) (reg : Registry σ) :
    Option (Outcome × Registry σ) :=
  match it.runStatus with
  | FetchResult.exn m => some (Outcome.pollError m, reg)
  | FetchResult.httpErr => none
  | FetchResult.ok none => none
  | FetchResult.ok (some s) =>
    if s = "success" then
      match it.threadState with
      | FetchResult.exn m => some (Outcome.pollError m, reg)
      | FetchResult.httpErr => none
      | FetchResult.ok snap =>
        match extractResult snap with
        | Extracted.report r => some (Outcome.report r, removeSession sid reg)
        | Extracted.clarification c => some (Outcome.clarification c, reg)
        | Extracted.noResult => some (Outcome.empty, reg)
    else if s = "error" ∨ s = "timeout" ∨ s = "interrupted" then
      some (Outcome.failed s, reg)
    else none

/-- The polling loop of `wait_for_research_completion`: `k` is the iteration
index (the poll happens at idealized elapsed time 2 * k) and `n` the number
of iterations still admitted by the deadline.  Returns the outcome, the final
registry, and the number of oracle polls actually performed.  When the
admitted iterations are exhausted the loop exits and line 128 returns the
timed-out outcome, leaving the registry untouched. -/
def waitGo {σ : Type} (oracle : Nat → PollIter) (sid : String) (k : Nat)
    (n : Nat) (reg : Registry σ) : (Outcome × Registry σ) × Nat :=
  match n with
  | 0 => ((Outcome.timedOut, reg), 0)
  | Nat.succ m =>
    match pollOnce (oracle k) sid reg with
    | some r => (r, 1)
    | none =>
      let w := waitGo oracle sid (k + 1) m reg
      (w.1, w.2 + 1)

/-- Number of loop iterations admitted by `while time.time() - start_time <
timeout` with a 2 second sleep per iteration: the k with 2 * k < timeout,
i.e. ceil(timeout / 2). -/
def numPolls (timeout : Nat) : Nat := (timeout + 1) / 2

/-- `wait_for_research_completion(thread_id, run_id, session_id, timeout)`
of async_research_mcp_final.py lines 56-128, as a function of the engine
oracle and the session registry (default timeout in the source: 720). -/
def wait_for_research_completion {σ : Type} (oracle : Nat → PollIter)
    (sid : String) (timeout : Nat) (reg : Registry σ) : Outcome × Registry σ :=
  (waitGo oracle sid 0 (numPolls timeout) reg).1

/-- Number of status polls issued by one call of
`wait_for_research_completion`. -/
def waitPollCount {σ : Type} (oracle : Nat → PollIter) (sid : String)
    (timeout : Nat) (reg : Registry σ) : Nat :=
  (waitGo oracle sid 0 (numPolls timeout) reg).2

/-- Return value of `poll_for_completion` of async_research_mcp.py lines
56-84: a dict with status "success" carrying the thread state, status
"error" carrying a message, or status "timeout". -/
inductive PollResult where
  | success (data : StateSnapshot)
  | error (message : String)
  | timedOut
deriving DecidableEq

/-- One iteration of the polling loop of `poll_for_completion`
(async_research_mcp.py lines 60-82).  Same loop structure as `pollOnce`, but
on success the raw thread state is returned without extraction and the
registry is never touched. -/
def pollOnceA (it : PollIter) : Option PollResult :=
  match it.runStatus with
  | FetchResult.exn m => some (PollResult.error ("Polling error: " ++ m))
  | FetchResult.httpErr => none
  | FetchResult.ok none => none
  | FetchResult.ok (some s) =>
    if s = "success" then
      match it.threadState with
      | FetchResult.exn m => some (PollResult.error ("Polling error: " ++ m))
      | FetchResult.httpErr => none
      | FetchResult.ok snap => some (PollResult.success snap)
    else if s = "error" ∨ s = "timeout" ∨ s = "interrupted" then
      some (PollResult.error ("Research failed with status: " ++ s))
    else none

/-- The polling loop of `poll_for_completion`, indexed like `waitGo`. -/
def pollGoA (oracle : Nat → PollIter) (k : Nat) (n : Nat) : PollResult :=
  match n with
  | 0 => PollResult.timedOut
  | Nat.succ m =>
    match pollOnceA (oracle k) with
    | some r => r
    | none => pollGoA oracle (k + 1) m

/-- `poll_for_completion(thread_id, run_id, max_wait)` of
async_research_mcp.py lines 56-84 (default max_wait in the source: 720). -/
def poll_for_completion (oracle : Nat → PollIter) (max_wait : Nat) : PollResult :=
  pollGoA oracle 0 (numPolls max_wait)

/-- Caller-facing outcome of `get_research_by_thread_id`, one constructor per
return statement of lines 257-298 of async_research_mcp_final.py. -/
inductive RecoverOutcome where
  | accessFailed
  | report (r : String)
  | clarification (c : String)
  | busy
  | noResults
  | exn (m : String)
deriving DecidableEq

/-- The body of `get_research_by_thread_id` on a successfully fetched thread
state (lines 264-295): report first, then the clarification heuristic on the
last message, then the busy check on `state.get("status", "unknown")`, then
the no-results fallback. -/
def recoverExtract (snap : StateSnapshot) : RecoverOutcome :=
  if truthy snap.final_report then
    RecoverOutcome.report (snap.final_report.getD "")
  else
    match snap.messages.getLast? with
    | some content =>
        if isClarification content then RecoverOutcome.clarification content
        else if snap.status = some "busy" then RecoverOutcome.busy
        else RecoverOutcome.noResults
    | none =>
        if snap.status = some "busy" then RecoverOutcome.busy
        else RecoverOutcome.noResults

/-- `get_research_by_thread_id(thread_id)` of async_research_mcp_final.py
lines 246-298, as a function of the state-fetch result.  The function reads
the global registry nowhere and never mutates it; the registry is threaded
through unchanged. -/
def get_research_by_thread_id (stateFetch : FetchResult StateSnapshot)
    (reg : Registry Session) : RecoverOutcome × Registry Session :=
  (match stateFetch with
   | FetchResult.exn m => RecoverOutcome.exn m
   | FetchResult.httpErr => RecoverOutcome.accessFailed
   | FetchResult.ok snap => recoverExtract snap, reg)

/-- Result of `POST /threads/{tid}/runs` as seen by `research_question`
(lines 179-185): network exception, non-200 status carrying `response.text`,
or a 200 whose JSON body may or may not carry a run_id key (a missing key
makes `response.json()["run_id"]` raise, caught by the outer handler). -/
inductive SubmitResult where
  | exn (msg : String)
  | httpFail (text : String)
  | ok (run_id : Option String)
deriving DecidableEq

/-- The remote interactions of one `research_question` /
`start_research` invocation up to run submission: the liveness probe of
`GET /docs` (true iff it did not raise), the value returned by
`get_assistant()`, the value returned by `create_thread()`, and the run
submission result. -/
structure StartEnv where
  healthOk : Bool
  assistant : Option String
  thread : Option String
  submit : SubmitResult
deriving DecidableEq

/-- Caller-facing outcome of `research_question`, one constructor per return
statement of lines 149-200 of async_research_mcp_final.py. -/
inductive StartOutcome where
  | serverUnavailable
  | noAssistant
  | noThread
  | startFailed (text : String)
  | researchError (msg : String)
  | waited (o : Outcome)
deriving DecidableEq

/-- `research_question(question, allow_clarification, timeout)` of
async_research_mcp_final.py lines 130-200: liveness probe, assistant
resolution, thread creation, run submission (each failure returning before
the registry is touched), then insertion of the session record (line 188)
and the completion wait.  A missing run_id key raises and is caught by the
outer handler before the insertion (line 185 precedes line 188). -/
def research_question (env : StartEnv) (oracle : Nat → PollIter)
    (sid question : String) (now timeout : Nat) (reg : Registry Session) :
    StartOutcome × Registry Session :=
  if env.healthOk = false then (StartOutcome.serverUnavailable, reg)
  else if truthy env.assistant = false then (StartOutcome.noAssistant, reg)
  else if truthy env.thread = false then (StartOutcome.noThread, reg)
  else
    match env.submit with
    | SubmitResult.exn m => (StartOutcome.researchError m, reg)
    | SubmitResult.httpFail text => (StartOutcome.startFailed text, reg)
    | SubmitResult.ok none => (StartOutcome.researchError "KeyError: run_id", reg)
    | SubmitResult.ok (some run_id) =>
      let reg2 := insertSession sid
        (Session.mk (env.thread.getD "") run_id question now) reg
      let w := wait_for_research_completion oracle sid timeout reg2
      (StartOutcome.waited w.1, w.2)

/-- Caller-facing outcome of `start_research` of async_research_mcp.py
lines 86-149. -/
inductive StartOutcomeA where
  | serverUnavailable
  | noAssistant
  | noThread
  | startFailed (text : String)
  | researchError (msg : String)
  | started (sid : String)
deriving DecidableEq

/-- `start_research(question, allow_clarification)` of async_research_mcp.py
lines 86-149: the same guard sequence as `research_question`, then insertion
of a session record with status "running" (line 138) and an immediate
success return; no completion wait. -/
def start_research (env : StartEnv) (sid question : String) (now : Nat)
    (reg : Registry SessionA) : StartOutcomeA × Registry SessionA :=
  if env.healthOk = false then (StartOutcomeA.serverUnavailable, reg)
  else if truthy env.assistant = false then (StartOutcomeA.noAssistant, reg)
  else if truthy env.thread = false then (StartOutcomeA.noThread, reg)
  else
    match env.submit with
    | SubmitResult.exn m => (StartOutcomeA.researchError m, reg)
    | SubmitResult.httpFail text => (StartOutcomeA.startFailed text, reg)
    | SubmitResult.ok none => (StartOutcomeA.researchError "KeyError: run_id", reg)
    | SubmitResult.ok (some run_id) =>
      (StartOutcomeA.started sid,
       insertSession sid
         (SessionA.mk (env.thread.getD "") run_id question "running" now) reg)

/-- The literal strings returned by `wait_for_research_completion`, lines
96-128 of async_research_mcp_final.py (apostrophes written as \x27). -/
def renderOutcome (thread_id : String) (timeout : Nat) : Outcome → String
  | Outcome.report r =>
      "RESEARCH_REPORT_COMPLETE\n\n" ++ r ++
      "\n\n[INSTRUCTION: Present the above research report to the user exactly as written, without summarizing, modifying, or adding commentary. This is the complete, final research report.]"
  | Outcome.clarification c =>
      "🤔 **Clarification Needed**\n\n" ++ c ++ "\n\n**Thread ID:** " ++ thread_id ++
      "\n\n*Use `continue_research_with_clarification()` to provide your answer.*"
  | Outcome.empty =>
      "❌ Research completed but no results found. Thread ID: " ++ thread_id
  | Outcome.failed s =>
      "❌ Research failed with status: " ++ s ++ ". Thread ID: " ++ thread_id ++
      " (you can try to recover results later)"
  | Outcome.pollError m =>
      "❌ Error during research: " ++ m ++ ". Thread ID: " ++ thread_id
  | Outcome.timedOut =>
      "⏰ Research timed out after " ++ toString timeout ++ " seconds. Thread ID: " ++
      thread_id ++ "\n\nThe research may still be running. Use `get_research_by_thread_id(\x27" ++
      thread_id ++ "\x27)` to check for results later."

/-- The literal strings returned by `research_question`, lines 149-200 of
async_research_mcp_final.py. -/
def renderStartOutcome (thread_id : String) (timeout : Nat) : StartOutcome → String
  | StartOutcome.serverUnavailable =>
      "❌ Deep Research server not available at http://localhost:2024"
  | StartOutcome.noAssistant => "❌ Could not get research assistant"
  | StartOutcome.noThread => "❌ Could not create research thread"
  | StartOutcome.startFailed text => "❌ Failed to start research: " ++ text
  | StartOutcome.researchError m =>
      "❌ Research error: " ++ m ++ ". Thread ID: " ++ thread_id
  | StartOutcome.waited o => renderOutcome thread_id timeout o

/-- The remote responses relevant to one pass of the body of
`get_assistant` (lines 21-44): the search call `POST /assistants/search`
(payload: the assistant ids of the search results) and the create call
`POST /assistants` (payload: the created assistant id; `ok` covers HTTP
status 200 and 201). -/
structure AssistantEnv where
  search : FetchResult (List String)
  create : FetchResult String
deriving DecidableEq

/-- The body of `get_assistant` after the cache check (lines 27-44):
(returned id, number of remote calls issued, number of create-assistant
calls issued).  A search exception skips the create call entirely (the
try block aborts); a non-200 search or an empty result list falls through to
the create call; a create failure returns None with the cache untouched. -/
def resolveRemote (env : AssistantEnv) : Option String × Nat × Nat :=
  match env.search with
  | FetchResult.exn _ => (none, 1, 0)
  | FetchResult.httpErr =>
    match env.create with
    | FetchResult.ok a => (some a, 2, 1)
    | _ => (none, 2, 1)
  | FetchResult.ok [] =>
    match env.create with
    | FetchResult.ok a => (some a, 2, 1)
    | _ => (none, 2, 1)
  | FetchResult.ok (a :: _) => (some a, 1, 0)

/-- State returned by one sequential call of `get_assistant`: the value
returned to the caller, the value of the global `assistant_id` cache after
the call, and the number of remote calls and create-assistant calls issued. -/
structure ResolveOutcome where
  result : Option String
  cache : Option String
  remoteCalls : Nat
  createCalls : Nat
deriving DecidableEq

/-- `get_assistant()` of async_research_mcp_final.py lines 21-44 as a
sequential state transformer on the global `assistant_id` cache.  Line 24
tests Python truthiness of the cache (None and "" both fail the test); both
success branches assign the global before returning it, and every failure
path leaves the cache untouched and returns None. -/
def get_assistant (env : AssistantEnv) (cache : Option String) : ResolveOutcome :=
  if truthy cache then ResolveOutcome.mk cache cache 0 0
  else
    let r := resolveRemote env
    ResolveOutcome.mk r.1
      (match r.1 with | some a => some a | none => cache) r.2.1 r.2.2

/-- Modelled interleaving of two concurrent first-time callers of
`get_assistant` under the schedule in which both tasks evaluate the
unsynchronized cache test of line 24 before either task has assigned the
global: each task whose observed cache is falsy runs the full resolution
body, and the create-assistant calls of both tasks are counted.  The source
provides no lock or single-flight guard around lines 21-44. -/
def raceBothReadFirst (env1 env2 : AssistantEnv) (cache0 : Option String) : Nat :=
  (if truthy cache0 then 0 else (resolveRemote env1).2.2) +
  (if truthy cache0 then 0 else (resolveRemote env2).2.2)

/-- A string is always found inside a concatenation that contains it between
a prefix and a suffix. -/
theorem strContains_mid (pre s post : String) : strContains (pre ++ s ++ post) s = true := by
  simp only [strContains, decide_eq_true_eq, String.data_append]
  exact List.infix_append pre.data s.data post.data

/-- A string is always found inside a concatenation that ends with it. -/
theorem strContains_end (pre s : String) : strContains (pre ++ s) s = true := by
  simp only [strContains, decide_eq_true_eq, String.data_append]
  exact ⟨pre.data, [], by simp⟩

/-- The extractor only produces a report outcome for a non-empty report
text, because line 91 tests Python truthiness of the report field. -/
theorem extractResult_report_ne (snap : StateSnapshot) (r : String)
    (h : extractResult snap = Extracted.report r) : r ≠ "" := by
  unfold extractResult at h
  split at h
  · rename_i ht
    injection h with h1
    subst h1
    cases hfr : snap.final_report with
    | none => rw [hfr] at ht; simp [truthy] at ht
    | some t =>
      rw [hfr] at ht
      simp only [Option.getD_some]
      simpa [truthy] using ht
  · split at h
    · split at h
      · simp at h
      · simp at h
    · simp at h

/-- Case analysis of one polling iteration of the completion wait: it either
falls through to the sleep, or returns a non-empty report having deleted the
session, or returns a non-report outcome leaving the registry untouched. -/
theorem pollOnce_registry {σ : Type} (it : PollIter) (sid : String) (reg : Registry σ) :
    pollOnce it sid reg = none ∨
    (∃ r, r ≠ "" ∧ pollOnce it sid reg = some (Outcome.report r, removeSession sid reg)) ∨
    (∃ o, pollOnce it sid reg = some (o, reg) ∧ ∀ r, o ≠ Outcome.report r) := by
  obtain ⟨rs, ts⟩ := it
  cases rs with
  | exn m => exact Or.inr (Or.inr ⟨Outcome.pollError m, rfl, fun r h => nomatch h⟩)
  | httpErr => exact Or.inl rfl
  | ok st =>
    cases st with
    | none => exact Or.inl rfl
    | some s =>
      by_cases hs : s = "success"
      · subst hs
        cases ts with
        | exn m =>
          exact Or.inr (Or.inr ⟨Outcome.pollError m, by simp [pollOnce], fun r h => nomatch h⟩)
        | httpErr => exact Or.inl (by simp [pollOnce])
        | ok snap =>
          cases he : extractResult snap with
          | report r =>
            exact Or.inr (Or.inl ⟨r, extractResult_report_ne snap r he, by simp [pollOnce, he]⟩)
          | clarification c =>
            exact Or.inr (Or.inr ⟨Outcome.clarification c, by simp [pollOnce, he],
              fun r h => nomatch h⟩)
          | noResult =>
            exact Or.inr (Or.inr ⟨Outcome.empty, by simp [pollOnce, he], fun r h => nomatch h⟩)
      · by_cases hterm : s = "error" ∨ s = "timeout" ∨ s = "interrupted"
        · exact Or.inr (Or.inr ⟨Outcome.failed s, by simp [pollOnce, hs, hterm],
            fun r h => nomatch h⟩)
        · exact Or.inl (by simp [pollOnce, hs, hterm])

/-- Through the whole polling loop, the registry is either the input
registry with the session deleted (and then a non-empty report was
returned), or exactly the input registry (and then no report was returned). -/
theorem waitGo_registry {σ : Type} (oracle : Nat → PollIter) (sid : String) :
    ∀ (n k : Nat) (reg : Registry σ),
      ((∃ r, r ≠ "" ∧ (waitGo oracle sid k n reg).1.1 = Outcome.report r) ∧
        (waitGo oracle sid k n reg).1.2 = removeSession sid reg) ∨
      ((∀ r, (waitGo oracle sid k n reg).1.1 ≠ Outcome.report r) ∧
        (waitGo oracle sid k n reg).1.2 = reg) := by
  intro n
  induction n with
  | zero =>
    intro k reg
    right
    constructor
    · intro r hcontra
      simp [waitGo] at hcontra
    · rfl
  | succ m ih =>
    intro k reg
    rcases pollOnce_registry (oracle k) sid reg with h | ⟨r, hr, h⟩ | ⟨o, h, ho⟩
    · have hstep : waitGo oracle sid k (m + 1) reg =
          ((waitGo oracle sid (k + 1) m reg).1, (waitGo oracle sid (k + 1) m reg).2 + 1) := by
        simp [waitGo, h]
      rw [hstep]
      exact ih (k + 1) reg
    · left
      constructor
      · exact ⟨r, hr, by simp [waitGo, h]⟩
      · simp [waitGo, h]
    · right
      constructor
      · intro r hrr
        apply ho r
        have h11 : (waitGo oracle sid k (m + 1) reg).1.1 = o := by simp [waitGo, h]
        rw [h11] at hrr
        exact hrr
      · simp [waitGo, h]

/-- If an iteration of the plain polling loop falls through to the sleep,
the corresponding iteration of the completion-wait loop does too: the two
loops share their loop structure (run-status GET, success-state GET, the same
terminal status set). -/
theorem pollOnce_none_of_pollOnceA {σ : Type} (it : PollIter) (sid : String)
    (reg : Registry σ) (h : pollOnceA it = none) : pollOnce it sid reg = none := by
  obtain ⟨rs, ts⟩ := it
  cases rs with
  | exn m => simp [pollOnceA] at h
  | httpErr => rfl
  | ok st =>
    cases st with
    | none => rfl
    | some s =>
      by_cases hs : s = "success"
      · subst hs
        cases ts with
        | exn m => simp [pollOnceA] at h
        | httpErr => simp [pollOnce]
        | ok snap => simp [pollOnceA] at h
      · by_cases hterm : s = "error" ∨ s = "timeout" ∨ s = "interrupted"
        · simp [pollOnceA, hs, hterm] at h
        · simp [pollOnce, hs, hterm]

/-- If every polling iteration falls through to the sleep, the
completion-wait loop exhausts its deadline, returns the timed-out outcome,
leaves the registry untouched, and has polled once per admitted iteration. -/
theorem waitGo_timedOut {σ : Type} (oracle : Nat → PollIter) (sid : String)
    (hnone : ∀ k, pollOnceA (oracle k) = none) :
    ∀ (n k : Nat) (reg : Registry σ),
      waitGo oracle sid k n reg = ((Outcome.timedOut, reg), n) := by
  intro n
  induction n with
  | zero => intro k reg; rfl
  | succ m ih =>
    intro k reg
    have h := pollOnce_none_of_pollOnceA (oracle k) sid reg (hnone k)
    simp [waitGo, h, ih (k + 1) reg]

/-- If every polling iteration falls through to the sleep, the plain polling
loop of async_research_mcp.py also exhausts its deadline and returns the
timeout dict. -/
theorem pollGoA_timedOut (oracle : Nat → PollIter)
    (hnone : ∀ k, pollOnceA (oracle k) = none) :
    ∀ (n k : Nat), pollGoA oracle k n = PollResult.timedOut := by
  intro n
  induction n with
  | zero => intro k; rfl
  | succ m ih =>
    intro k
    simp [pollGoA, hnone k, ih (k + 1)]

/-- The completion-wait loop never issues more status polls than the
deadline admits iterations. -/
theorem waitGo_count_le {σ : Type} (oracle : Nat → PollIter) (sid : String) :
    ∀ (n k : Nat) (reg : Registry σ), (waitGo oracle sid k n reg).2 ≤ n := by
  intro n
  induction n with
  | zero => intro k reg; exact Nat.le_refl 0
  | succ m ih =>
    intro k reg
    cases hp : pollOnce (oracle k) sid reg with
    | some r => simp [waitGo, hp]
    | none =>
      have := ih (k + 1) reg
      simp only [waitGo, hp]
      omega

/-- C1: for every thread-state snapshot whose values contain a non-empty
final report, both the success branch of the completion wait and recovery by
thread id return the report outcome, with no condition on the message
history (so even when the last message looks like a question): the report
check of lines 90-91 and 268-269 runs strictly before the clarification
heuristic and the empty-result fallback. -/
theorem report_priority_c1 (snap : StateSnapshot) (it : PollIter) (sid : String)
    (reg : Registry Session)
    (hrep : truthy snap.final_report = true)
    (hst : it.runStatus = FetchResult.ok (some "success"))
    (hsn : it.threadState = FetchResult.ok snap) :
    pollOnce it sid reg =
      some (Outcome.report (snap.final_report.getD ""), removeSession sid reg) ∧
    get_research_by_thread_id (FetchResult.ok snap) reg =
      (RecoverOutcome.report (snap.final_report.getD ""), reg) := by
  constructor
  · simp [pollOnce, hst, hsn, extractResult, hrep]
  · simp [get_research_by_thread_id, recoverExtract, hrep]

/-- Witness for C1: a snapshot holding the report "Paris." whose last
message ends in a question mark still yields the report outcome on both
paths, and the session is deleted on the wait path. -/
theorem report_priority_c1_witness :
    truthy (StateSnapshot.mk (some "Paris.") ["Could you clarify?"] none).final_report = true ∧
    pollOnce
        (PollIter.mk (FetchResult.ok (some "success"))
          (FetchResult.ok (StateSnapshot.mk (some "Paris.") ["Could you clarify?"] none)))
        "s1" [("s1", Session.mk "t1" "r1" "q" 0)] =
      some (Outcome.report ((StateSnapshot.mk (some "Paris.") ["Could you clarify?"] none).final_report.getD ""),
        removeSession "s1" [("s1", Session.mk "t1" "r1" "q" 0)]) ∧
    get_research_by_thread_id
        (FetchResult.ok (StateSnapshot.mk (some "Paris.") ["Could you clarify?"] none))
        [("s1", Session.mk "t1" "r1" "q" 0)] =
      (RecoverOutcome.report ((StateSnapshot.mk (some "Paris.") ["Could you clarify?"] none).final_report.getD ""),
        [("s1", Session.mk "t1" "r1" "q" 0)]) :=
  ⟨by decide,
   (report_priority_c1 (StateSnapshot.mk (some "Paris.") ["Could you clarify?"] none)
      (PollIter.mk (FetchResult.ok (some "success"))
        (FetchResult.ok (StateSnapshot.mk (some "Paris.") ["Could you clarify?"] none)))
      "s1" [("s1", Session.mk "t1" "r1" "q" 0)] (by decide) rfl rfl).1,
   (report_priority_c1 (StateSnapshot.mk (some "Paris.") ["Could you clarify?"] none)
      (PollIter.mk (FetchResult.ok (some "success"))
        (FetchResult.ok (StateSnapshot.mk (some "Paris.") ["Could you clarify?"] none)))
      "s1" [("s1", Session.mk "t1" "r1" "q" 0)] (by decide) rfl rfl).2⟩

/-- C2: across every possible outcome of the completion wait, the session is
deleted from the registry exactly in the branch that returns a non-empty
final report; on terminal run failure, network failure, deadline exhaustion
and success-without-result the registry is returned unchanged, so the
session record and its thread id stay discoverable. -/
theorem session_removed_only_on_report_c2 {σ : Type} (oracle : Nat → PollIter)
    (sid : String) (timeout : Nat) (reg : Registry σ) :
    ((∃ r, r ≠ "" ∧ (wait_for_research_completion oracle sid timeout reg).1 = Outcome.report r) ∧
      (wait_for_research_completion oracle sid timeout reg).2 = removeSession sid reg) ∨
    ((∀ r, (wait_for_research_completion oracle sid timeout reg).1 ≠ Outcome.report r) ∧
      (wait_for_research_completion oracle sid timeout reg).2 = reg) := by
  unfold wait_for_research_completion
  exact waitGo_registry oracle sid (numPolls timeout) 0 reg

/-- Witness for C2, instantiated at a run that fails with terminal status
"error" on the first poll: the outcome is not a report and the registry is
unchanged. -/
theorem session_removed_only_on_report_c2_witness :
    ((∃ r, r ≠ "" ∧
        (wait_for_research_completion
            (fun _ => PollIter.mk (FetchResult.ok (some "error")) FetchResult.httpErr)
            "s1" 4 [("s1", Session.mk "t1" "r1" "q" 0)]).1 = Outcome.report r) ∧
      (wait_for_research_completion
          (fun _ => PollIter.mk (FetchResult.ok (some "error")) FetchResult.httpErr)
          "s1" 4 [("s1", Session.mk "t1" "r1" "q" 0)]).2 =
        removeSession "s1" [("s1", Session.mk "t1" "r1" "q" 0)]) ∨
    ((∀ r, (wait_for_research_completion
          (fun _ => PollIter.mk (FetchResult.ok (some "error")) FetchResult.httpErr)
          "s1" 4 [("s1", Session.mk "t1" "r1" "q" 0)]).1 ≠ Outcome.report r) ∧
      (wait_for_research_completion
          (fun _ => PollIter.mk (FetchResult.ok (some "error")) FetchResult.httpErr)
          "s1" 4 [("s1", Session.mk "t1" "r1" "q" 0)]).2 =
        [("s1", Session.mk "t1" "r1" "q" 0)]) :=
  session_removed_only_on_report_c2
    (fun _ => PollIter.mk (FetchResult.ok (some "error")) FetchResult.httpErr)
    "s1" 4 [("s1", Session.mk "t1" "r1" "q" 0)]

/-- C3: when the engine oracle never reports a terminal run status before
the deadline, the completion wait of async_research_mcp_final.py returns
the timed-out outcome (not success, not failure) with the registry
unchanged, the polling loop of async_research_mcp.py returns the timeout
dict, and a session stored with status "running" is still in the registry
with status "running" afterwards. -/
theorem deadline_timeout_c3 (oracle : Nat → PollIter) (sid : String) (timeout : Nat)
    (reg : Registry SessionA) (s : SessionA)
    (hnone : ∀ k, pollOnceA (oracle k) = none)
    (hs : lookupSession reg sid = some s)
    (hrun : s.status = "running") :
    wait_for_research_completion oracle sid timeout reg = (Outcome.timedOut, reg) ∧
    poll_for_completion oracle timeout = PollResult.timedOut ∧
    lookupSession (wait_for_research_completion oracle sid timeout reg).2 sid = some s ∧
    s.status = "running" := by
  have hw : wait_for_research_completion oracle sid timeout reg = (Outcome.timedOut, reg) := by
    unfold wait_for_research_completion
    rw [waitGo_timedOut oracle sid hnone]
  refine ⟨hw, ?_, ?_, hrun⟩
  · unfold poll_for_completion
    rw [pollGoA_timedOut oracle hnone]
  · rw [hw]
    exact hs

/-- Witness for C3, the scenario of the specification: deadline 4 with poll
interval 2, an oracle that always answers run status "pending", and a
session stored with status "running". -/
theorem deadline_timeout_c3_witness :
    wait_for_research_completion
        (fun _ => PollIter.mk (FetchResult.ok (some "pending")) FetchResult.httpErr)
        "s1" 4 [("s1", SessionA.mk "t1" "r1" "q" "running" 0)] =
      (Outcome.timedOut, [("s1", SessionA.mk "t1" "r1" "q" "running" 0)]) ∧
    poll_for_completion
        (fun _ => PollIter.mk (FetchResult.ok (some "pending")) FetchResult.httpErr) 4 =
      PollResult.timedOut ∧
    lookupSession
        (wait_for_research_completion
            (fun _ => PollIter.mk (FetchResult.ok (some "pending")) FetchResult.httpErr)
            "s1" 4 [("s1", SessionA.mk "t1" "r1" "q" "running" 0)]).2 "s1" =
      some (SessionA.mk "t1" "r1" "q" "running" 0) ∧
    (SessionA.mk "t1" "r1" "q" "running" 0).status = "running" :=
  deadline_timeout_c3
    (fun _ => PollIter.mk (FetchResult.ok (some "pending")) FetchResult.httpErr)
    "s1" 4 [("s1", SessionA.mk "t1" "r1" "q" "running" 0)]
    (SessionA.mk "t1" "r1" "q" "running" 0)
    (fun _ => rfl) (by decide) rfl

/-- C4 counterexample: a snapshot with no final report, a non-empty message
history whose last text triggers none of the heuristic conditions, and
thread status "busy".  The claim says the outcome is then "no usable
result", but the recovery path (lines 290-293) returns the still-in-progress
outcome instead. -/
theorem clarification_heuristic_c4_counterexample :
    truthy (StateSnapshot.mk none ["research ongoing"] (some "busy")).final_report = false ∧
    (StateSnapshot.mk none ["research ongoing"] (some "busy")).messages ≠ [] ∧
    isClarification "research ongoing" = false ∧
    recoverExtract (StateSnapshot.mk none ["research ongoing"] (some "busy")) =
      RecoverOutcome.busy ∧
    RecoverOutcome.busy ≠ RecoverOutcome.noResults := by
  decide

/-- C4 (amended): for every snapshot with no (or empty) final report and a
last message of text c, both extractors classify the outcome as a
clarification request carrying c exactly when c is non-empty and contains a
question mark or the substring "clarify" or "specify" case-insensitively;
otherwise the wait-path extractor yields the no-usable-result outcome, while
the recovery path yields the still-in-progress outcome when the thread
status is "busy" and its no-results outcome otherwise. -/
theorem clarification_heuristic_c4 (snap : StateSnapshot) (c : String)
    (hrep : truthy snap.final_report = false)
    (hlast : snap.messages.getLast? = some c) :
    isClarification c =
      ((c != "") && (strContains c "?" || strContains (lowerStr c) "clarify" ||
        strContains (lowerStr c) "specify")) ∧
    (isClarification c = true →
        extractResult snap = Extracted.clarification c ∧
        recoverExtract snap = RecoverOutcome.clarification c) ∧
    (isClarification c = false →
        extractResult snap = Extracted.noResult ∧
        recoverExtract snap =
          if snap.status = some "busy" then RecoverOutcome.busy
          else RecoverOutcome.noResults) := by
  refine ⟨rfl, fun hc => ⟨?_, ?_⟩, fun hc => ⟨?_, ?_⟩⟩
  · simp [extractResult, hrep, hlast, hc]
  · simp [recoverExtract, hrep, hlast, hc]
  · simp [extractResult, hrep, hlast, hc]
  · simp [recoverExtract, hrep, hlast, hc]

/-- Witness for C4 (amended): a last message that asks a question is
classified as a clarification request on both paths. -/
theorem clarification_heuristic_c4_witness :
    isClarification "Which region do you mean?" =
      (("Which region do you mean?" != "") &&
        (strContains "Which region do you mean?" "?" ||
         strContains (lowerStr "Which region do you mean?") "clarify" ||
         strContains (lowerStr "Which region do you mean?") "specify")) ∧
    isClarification "Which region do you mean?" = true ∧
    extractResult (StateSnapshot.mk none ["Which region do you mean?"] none) =
      Extracted.clarification "Which region do you mean?" ∧
    recoverExtract (StateSnapshot.mk none ["Which region do you mean?"] none) =
      RecoverOutcome.clarification "Which region do you mean?" :=
  ⟨(clarification_heuristic_c4 (StateSnapshot.mk none ["Which region do you mean?"] none)
      "Which region do you mean?" (by decide) rfl).1,
   by decide,
   ((clarification_heuristic_c4 (StateSnapshot.mk none ["Which region do you mean?"] none)
      "Which region do you mean?" (by decide) rfl).2.1 (by decide)).1,
   ((clarification_heuristic_c4 (StateSnapshot.mk none ["Which region do you mean?"] none)
      "Which region do you mean?" (by decide) rfl).2.1 (by decide)).2⟩

/-- C5: during polling, a status fetch that does not yield a terminal status
either leads to exactly one more wait of the poll interval (non-success HTTP
response: the iteration falls through to the sleep and the loop resumes at
the next index) or to an immediate diagnostic failure return (network
exception: the loop returns the error outcome at once), and the number of
status polls never exceeds what the deadline admits, so no failing call is
retried without bound. -/
theorem polling_policy_c5 {σ : Type} (oracle : Nat → PollIter) (sid : String)
    (k n timeout : Nat) (reg : Registry σ) :
    ((oracle k).runStatus = FetchResult.httpErr →
      waitGo oracle sid k (n + 1) reg =
        ((waitGo oracle sid (k + 1) n reg).1, (waitGo oracle sid (k + 1) n reg).2 + 1)) ∧
    (∀ m, (oracle k).runStatus = FetchResult.exn m →
      waitGo oracle sid k (n + 1) reg = ((Outcome.pollError m, reg), 1)) ∧
    (waitGo oracle sid k n reg).2 ≤ n ∧
    waitPollCount oracle sid timeout reg ≤ numPolls timeout := by
  refine ⟨?_, ?_, waitGo_count_le oracle sid n k reg, ?_⟩
  · intro h
    have hp : pollOnce (oracle k) sid reg = none := by
      simp [pollOnce, h]
    simp [waitGo, hp]
  · intro m h
    have hp : pollOnce (oracle k) sid reg = some (Outcome.pollError m, reg) := by
      simp [pollOnce, h]
    simp [waitGo, hp]
  · exact waitGo_count_le oracle sid (numPolls timeout) 0 reg

/-- Witness for C5: with deadline 4 (two admitted polls), a non-success
HTTP poll response retries on the next interval, a network exception returns
the diagnostic failure at once, and the poll count stays within the
deadline. -/
theorem polling_policy_c5_witness :
    waitGo (fun _ => PollIter.mk FetchResult.httpErr FetchResult.httpErr) "s1" 0 2
        ([] : Registry Session) =
      ((waitGo (fun _ => PollIter.mk FetchResult.httpErr FetchResult.httpErr) "s1" 1 1
          ([] : Registry Session)).1,
        (waitGo (fun _ => PollIter.mk FetchResult.httpErr FetchResult.httpErr) "s1" 1 1
          ([] : Registry Session)).2 + 1) ∧
    waitGo (fun _ => PollIter.mk (FetchResult.exn "connection refused") FetchResult.httpErr)
        "s1" 0 2 ([] : Registry Session) =
      ((Outcome.pollError "connection refused", ([] : Registry Session)), 1) ∧
    waitPollCount (fun _ => PollIter.mk FetchResult.httpErr FetchResult.httpErr) "s1" 4
        ([] : Registry Session) ≤ numPolls 4 :=
  ⟨(polling_policy_c5 (fun _ => PollIter.mk FetchResult.httpErr FetchResult.httpErr)
      "s1" 0 1 4 ([] : Registry Session)).1 rfl,
   (polling_policy_c5 (fun _ => PollIter.mk (FetchResult.exn "connection refused") FetchResult.httpErr)
      "s1" 0 1 4 ([] : Registry Session)).2.1 "connection refused" rfl,
   (polling_policy_c5 (fun _ => PollIter.mk FetchResult.httpErr FetchResult.httpErr)
      "s1" 0 1 4 ([] : Registry Session)).2.2.2⟩

/-- C6 counterexample: a registry holding session "s1" and a thread state
that now contains the final report "Paris.".  Recovery by thread id returns
the report, yet "s1" is still present in the session listing afterwards:
`get_research_by_thread_id` never touches the registry, so the claimed
absence after delivery is false. -/
theorem recover_keeps_session_c6_counterexample :
    (get_research_by_thread_id (FetchResult.ok (StateSnapshot.mk (some "Paris.") [] none))
        [("s1", Session.mk "t-1" "r-1" "q" 0)]).1 = RecoverOutcome.report "Paris." ∧
    "s1" ∈ list_active_sessions
        (get_research_by_thread_id (FetchResult.ok (StateSnapshot.mk (some "Paris.") [] none))
          [("s1", Session.mk "t-1" "r-1" "q" 0)]).2 := by
  decide

/-- C6 (amended): after a session timed out, recovery by its thread id
against a thread state that now contains a non-empty final report returns
that report, but the session record is not removed: it remains in the
session listing (only the success path of the completion wait deletes a
session). -/
theorem recover_keeps_session_c6 (snap : StateSnapshot) (reg : Registry Session)
    (sid : String)
    (hrep : truthy snap.final_report = true)
    (hmem : sid ∈ list_active_sessions reg) :
    get_research_by_thread_id (FetchResult.ok snap) reg =
      (RecoverOutcome.report (snap.final_report.getD ""), reg) ∧
    sid ∈ list_active_sessions (get_research_by_thread_id (FetchResult.ok snap) reg).2 := by
  have h : get_research_by_thread_id (FetchResult.ok snap) reg =
      (RecoverOutcome.report (snap.final_report.getD ""), reg) := by
    simp [get_research_by_thread_id, recoverExtract, hrep]
  refine ⟨h, ?_⟩
  rw [h]
  exact hmem

/-- Witness for C6 (amended): the concrete recovery of the report "Paris."
for the listed session "s1". -/
theorem recover_keeps_session_c6_witness :
    get_research_by_thread_id (FetchResult.ok (StateSnapshot.mk (some "Paris.") [] none))
        [("s1", Session.mk "t-1" "r-1" "q" 0)] =
      (RecoverOutcome.report ((StateSnapshot.mk (some "Paris.") [] none).final_report.getD ""),
        [("s1", Session.mk "t-1" "r-1" "q" 0)]) ∧
    "s1" ∈ list_active_sessions
        (get_research_by_thread_id (FetchResult.ok (StateSnapshot.mk (some "Paris.") [] none))
          [("s1", Session.mk "t-1" "r-1" "q" 0)]).2 :=
  recover_keeps_session_c6 (StateSnapshot.mk (some "Paris.") [] none)
    [("s1", Session.mk "t-1" "r-1" "q" 0)] "s1" (by decide) (by decide)

/-- C7 counterexample: a run submission that fails with HTTP status other
than 200 after the thread "t-123" was created and the session id "ab12cd34"
was generated.  The user-visible message is built only from the engine
response text and contains neither the thread id nor the session id. -/
theorem failure_messages_carry_thread_id_c7_counterexample :
    research_question
        (StartEnv.mk true (some "a1") (some "t-123") (SubmitResult.httpFail "Internal Server Error"))
        (fun _ => PollIter.mk FetchResult.httpErr FetchResult.httpErr)
        "ab12cd34" "q" 0 720 [] =
      (StartOutcome.startFailed "Internal Server Error", []) ∧
    strContains (renderStartOutcome "t-123" 720 (StartOutcome.startFailed "Internal Server Error"))
        "t-123" = false ∧
    strContains (renderStartOutcome "t-123" 720 (StartOutcome.startFailed "Internal Server Error"))
        "ab12cd34" = false := by
  decide

/-- C7 (amended): the post-submission failure messages — terminal run
failure, wait timeout, polling failure, and the outer exception handler of
the research entry point — each contain the thread id, so the caller can
recover without restating the question; the run-submission HTTP-failure
message is the exception: it carries only the engine response text. -/
theorem failure_messages_carry_thread_id_c7 (tid : String) (timeout : Nat)
    (s m e : String) :
    strContains (renderOutcome tid timeout (Outcome.failed s)) tid = true ∧
    strContains (renderOutcome tid timeout Outcome.timedOut) tid = true ∧
    strContains (renderOutcome tid timeout (Outcome.pollError m)) tid = true ∧
    strContains (renderStartOutcome tid timeout (StartOutcome.researchError e)) tid = true := by
  refine ⟨?_, ?_, ?_, ?_⟩
  · simp only [renderOutcome]
    exact strContains_mid _ tid _
  · simp only [renderOutcome]
    exact strContains_mid _ tid _
  · simp only [renderOutcome]
    exact strContains_end _ tid
  · simp only [renderStartOutcome]
    exact strContains_end _ tid

/-- C8 counterexample: the remote search can return an assistant whose id is
the empty string.  The resolver returns it (a non-absent value) and caches
it, but the truthiness test of line 24 rejects the cached "" on the next
call, which therefore issues a remote request again, returns a different
identifier and replaces the cached value. -/
theorem cached_assistant_stable_c8_counterexample :
    (get_assistant (AssistantEnv.mk (FetchResult.ok [""]) FetchResult.httpErr) none).result =
      some "" ∧
    (get_assistant (AssistantEnv.mk (FetchResult.ok [""]) FetchResult.httpErr) none).cache =
      some "" ∧
    (get_assistant (AssistantEnv.mk (FetchResult.ok ["a2"]) FetchResult.httpErr)
        (some "")).remoteCalls = 1 ∧
    (get_assistant (AssistantEnv.mk (FetchResult.ok ["a2"]) FetchResult.httpErr)
        (some "")).result = some "a2" ∧
    (get_assistant (AssistantEnv.mk (FetchResult.ok ["a2"]) FetchResult.httpErr)
        (some "")).cache = some "a2" := by
  decide

/-- C8 (amended): once the resolver has returned a non-empty assistant
identifier, every subsequent sequential call returns the same identifier
with zero remote calls and the cache unchanged; and every call that returns
a non-absent identifier leaves exactly that identifier in the cache.  An
empty-string identifier, though non-absent, fails the truthiness cache test
and does not enjoy this stability. -/
theorem cached_assistant_stable_c8 (env env2 : AssistantEnv) (a : String)
    (cache : Option String) (b : String) (ha : a ≠ "") :
    get_assistant env (some a) = ResolveOutcome.mk (some a) (some a) 0 0 ∧
    ((get_assistant env2 cache).result = some b →
      (get_assistant env2 cache).cache = some b) := by
  constructor
  · simp [get_assistant, truthy, ha]
  · intro h
    unfold get_assistant at h ⊢
    by_cases hc : truthy cache = true
    · rw [if_pos hc] at h ⊢
      exact h
    · rw [if_neg hc] at h ⊢
      cases hr : (resolveRemote env2).1 with
      | none => simp [hr] at h
      | some x =>
        simp only [hr] at h ⊢
        exact h

/-- Witness for C8 (amended): the cached identifier "asst-1" is returned
with zero remote calls, and a resolution that returns "b1" caches "b1". -/
theorem cached_assistant_stable_c8_witness :
    get_assistant (AssistantEnv.mk (FetchResult.ok ["x"]) FetchResult.httpErr) (some "asst-1") =
      ResolveOutcome.mk (some "asst-1") (some "asst-1") 0 0 ∧
    (get_assistant (AssistantEnv.mk (FetchResult.ok ["b1"]) FetchResult.httpErr) none).cache =
      some "b1" :=
  ⟨(cached_assistant_stable_c8 (AssistantEnv.mk (FetchResult.ok ["x"]) FetchResult.httpErr)
      (AssistantEnv.mk (FetchResult.ok ["b1"]) FetchResult.httpErr) "asst-1" none "b1"
      (by decide)).1,
   (cached_assistant_stable_c8 (AssistantEnv.mk (FetchResult.ok ["x"]) FetchResult.httpErr)
      (AssistantEnv.mk (FetchResult.ok ["b1"]) FetchResult.httpErr) "asst-1" none "b1"
      (by decide)).2 (by decide)⟩

/-- C9: under the interleaving in which two concurrent first-time callers
both evaluate the unsynchronized cache test of line 24 before either has
assigned the global — with the engine search finding no existing assistant
and the create call succeeding — the create-assistant operation is invoked
twice, refuting the at-most-once requirement that the specification states
for this unguarded code. -/
theorem assistant_create_race_c9 :
    raceBothReadFirst (AssistantEnv.mk (FetchResult.ok []) (FetchResult.ok "a1"))
        (AssistantEnv.mk (FetchResult.ok []) (FetchResult.ok "a1")) none = 2 ∧
    ¬ raceBothReadFirst (AssistantEnv.mk (FetchResult.ok []) (FetchResult.ok "a1"))
        (AssistantEnv.mk (FetchResult.ok []) (FetchResult.ok "a1")) none ≤ 1 := by
  decide

/-- C10: the research entry points insert a session record only after run
submission has succeeded with a run id; if the liveness check fails, the
assistant or thread resolution yields a falsy value, the submission raises
or returns a non-200 status, or the 200 response lacks a run id, the
registry is returned exactly as it was — in both
async_research_mcp_final.py and async_research_mcp.py. -/
theorem registry_unchanged_on_failure_c10 (env : StartEnv) (oracle : Nat → PollIter)
    (sid question : String) (now timeout : Nat) (reg : Registry Session)
    (regA : Registry SessionA)
    (hfail : env.healthOk = false ∨ truthy env.assistant = false ∨
      truthy env.thread = false ∨ ∀ rid, env.submit ≠ SubmitResult.ok (some rid)) :
    (research_question env oracle sid question now timeout reg).2 = reg ∧
    (start_research env sid question now regA).2 = regA := by
  constructor
  · unfold research_question
    by_cases hh : env.healthOk = false
    · rw [if_pos hh]
    · rw [if_neg hh]
      by_cases ha : truthy env.assistant = false
      · rw [if_pos ha]
      · rw [if_neg ha]
        by_cases ht : truthy env.thread = false
        · rw [if_pos ht]
        · rw [if_neg ht]
          rcases hfail with h1 | h1 | h1 | h1
          · exact absurd h1 hh
          · exact absurd h1 ha
          · exact absurd h1 ht
          · cases hsub : env.submit with
            | exn m => rfl
            | httpFail t2 => rfl
            | ok r =>
              cases r with
              | none => rfl
              | some rid => exact absurd hsub (h1 rid)
  · unfold start_research
    by_cases hh : env.healthOk = false
    · rw [if_pos hh]
    · rw [if_neg hh]
      by_cases ha : truthy env.assistant = false
      · rw [if_pos ha]
      · rw [if_neg ha]
        by_cases ht : truthy env.thread = false
        · rw [if_pos ht]
        · rw [if_neg ht]
          rcases hfail with h1 | h1 | h1 | h1
          · exact absurd h1 hh
          · exact absurd h1 ha
          · exact absurd h1 ht
          · cases hsub : env.submit with
            | exn m => rfl
            | httpFail t2 => rfl
            | ok r =>
              cases r with
              | none => rfl
              | some rid => exact absurd hsub (h1 rid)

/-- Witness for C10: a run submission failing with a non-200 status leaves
both registries empty. -/
theorem registry_unchanged_on_failure_c10_witness :
    (research_question (StartEnv.mk true (some "a1") (some "t1") (SubmitResult.httpFail "boom"))
        (fun _ => PollIter.mk FetchResult.httpErr FetchResult.httpErr)
        "s1" "q" 0 720 []).2 = ([] : Registry Session) ∧
    (start_research (StartEnv.mk true (some "a1") (some "t1") (SubmitResult.httpFail "boom"))
        "s1" "q" 0 []).2 = ([] : Registry SessionA) :=
  registry_unchanged_on_failure_c10
    (StartEnv.mk true (some "a1") (some "t1") (SubmitResult.httpFail "boom"))
    (fun _ => PollIter.mk FetchResult.httpErr FetchResult.httpErr)
    "s1" "q" 0 720 [] []
    (Or.inr (Or.inr (Or.inr (fun _ h => nomatch h))))
